import Mathlib

/-!
Verification of the tsd-publicbucketscanner pipeline (src/main.py): a
shallow embedding of the candidate generator, the accessibility
classifier and the scan driver, followed by theorems about the claims
of the specification.

External effects are abstracted as oracles: DNS resolution becomes a
function String -> Bool, and the HTTP fetch becomes a function
String -> FetchOutcome.
-/

namespace BucketScanner

/-- Substring search helper: true when the first list is an initial
segment of the second. Models the step of the Python "in" operator that
compares the needle against one position of the haystack. -/
def leadsWith : List Char → List Char → Bool
  | [], _ => true
  | _ :: _, [] => false
  | a :: as, b :: bs => (a == b) && leadsWith as bs

/-- Substring containment over char lists: the needle occurs as a
contiguous run somewhere in the haystack. -/
def hasSubstr (needle : List Char) : List Char → Bool
  | [] => leadsWith needle []
  | c :: rest => leadsWith needle (c :: rest) || hasSubstr needle rest

/-- Models the Python expression "needle in hay" on strings
(substring containment). -/
def strContains (hay needle : String) : Bool :=
  hasSubstr needle.toList hay.toList

/-- Splits a char list at every dot, keeping empty pieces. Used to
decompose a candidate domain into its dot-separated labels: the
character classes of the regex at src/main.py line 17 exclude the dot,
so the span the anchors delimit matches the regex exactly when its
dot-separated pieces match the per-label patterns. -/
def splitLabels : List Char → List (List Char)
  | [] => [[]]
  | c :: rest =>
    if c = '.' then [] :: splitLabels rest
    else
      match splitLabels rest with
      | [] => [[c]]
      | l :: ls => (c :: l) :: ls

/-- ASCII letter or digit, the class [a-zA-Z0-9] of the regex. -/
def isAlnumChar (c : Char) : Bool := c.isAlpha || c.isDigit

/-- The part of the regex before the first dot:
[a-zA-Z0-9][a-zA-Z0-9-]{1,61}[a-zA-Z0-9], i.e. 3 to 63 characters,
alphanumeric at both ends, alphanumeric or hyphen in between. -/
def firstLabelOk (l : List Char) : Bool :=
  decide (3 ≤ l.length) && decide (l.length ≤ 63) &&
  (match l.head? with | some c => isAlnumChar c | none => false) &&
  (match l.getLast? with | some c => isAlnumChar c | none => false) &&
  ((l.drop 1).dropLast.all (fun c => isAlnumChar c || c == '-'))

/-- One group of the trailing (?:\.[a-zA-Z]{2,})+ part of the regex:
purely alphabetic, at least two characters. -/
def tailLabelOk (l : List Char) : Bool :=
  decide (2 ≤ l.length) && l.all (fun c => c.isAlpha)

/-- The span matched by the regex body of is_valid_domain
(src/main.py line 17) between its anchors:
[a-zA-Z0-9][a-zA-Z0-9-]{1,61}[a-zA-Z0-9](?:\.[a-zA-Z]{2,})+.
Since no character class of the regex contains a dot, the span matches
exactly when its dot-separated labels do: the first label fits the
3-to-63-character alphanumeric/hyphen pattern, there is at least one
further label, and every further label is purely alphabetic of length
at least two. -/
def domainRegexCore (cs : List Char) : Bool :=
  match splitLabels cs with
  | [] => false
  | first :: rest => firstLabelOk first && !rest.isEmpty && rest.all tailLabelOk

/-- The regex test of is_valid_domain (src/main.py line 17): Python
re.match of r"^[a-zA-Z0-9][a-zA-Z0-9-]{1,61}[a-zA-Z0-9](?:\.[a-zA-Z]{2,})+$".
In Python (without re.MULTILINE) the dollar anchor matches at the end
of the string or just before one newline at the end of the string, so
the test succeeds when the regex body matches the whole string, or the
whole string minus a single trailing newline. -/
def domainRegexMatches (s : String) : Bool :=
  domainRegexCore s.toList ||
  (match s.toList.getLast? with
   | some c => c == '\n' && domainRegexCore s.toList.dropLast
   | none => false)

/-- is_valid_domain (src/main.py lines 13-23). The DNS lookup
(socket.gethostbyname) is external input and enters as the resolve
oracle: resolve d = true means the lookup succeeds, false means it
raises socket.gaierror. -/
def is_valid_domain (domain : String) (resolve : String → Bool) : Bool :=
  if !domainRegexMatches domain then false
  else resolve domain

/-- Outcome of requests.get on one URL: either an exception during the
request (connection error, timeout, DNS failure, ...) or an HTTP
response with a status code and a body text. -/
inductive FetchOutcome where
  | failure : FetchOutcome
  | response (status : Nat) (body : String) : FetchOutcome
deriving DecidableEq

/-- Which branch of check_bucket_access fires; each constructor is one
return site of the function, in source order, and carries the
diagnostic the branch logs. -/
inductive ClassifyOutcome where
  | s3Listing : ClassifyOutcome
  | gcsHeuristic : ClassifyOutcome
  | azureListing : ClassifyOutcome
  | deniedMarker : ClassifyOutcome
  | inconclusive : ClassifyOutcome
  | deniedException : ClassifyOutcome
deriving DecidableEq

/-- The tri-state verdict of the specification. -/
inductive Verdict where
  | accessible : Verdict
  | denied : Verdict
  | inconclusive : Verdict
deriving DecidableEq

/-- Maps each branch of check_bucket_access to the verdict of the
specification: the three signature matches are Accessible, the
exception path and the denial-marker path are Denied, the fall-through
is Inconclusive. -/
def verdictOf : ClassifyOutcome → Verdict
  | ClassifyOutcome.s3Listing => Verdict.accessible
  | ClassifyOutcome.gcsHeuristic => Verdict.accessible
  | ClassifyOutcome.azureListing => Verdict.accessible
  | ClassifyOutcome.deniedMarker => Verdict.denied
  | ClassifyOutcome.inconclusive => Verdict.inconclusive
  | ClassifyOutcome.deniedException => Verdict.denied

/-- response.raise_for_status raises requests.exceptions.HTTPError
exactly for status codes 400-599 (the 4xx and 5xx classes). -/
def raiseForStatusRaises (status : Nat) : Bool :=
  decide (400 ≤ status) && decide (status < 600)

/-- The branch structure of check_bucket_access (src/main.py lines
26-63) applied to one fetch outcome: the exception handler first (a
failed request, or raise_for_status on a 4xx/5xx response), then the
body-signature checks in source order: ListBucketResult, then Contents
together with Name, then EnumerationResults, then the denial markers
AccessDenied / NoSuchBucket, then the fall-through. -/
def classifyResponse (outcome : FetchOutcome) : ClassifyOutcome :=
  match outcome with
  | FetchOutcome.failure => ClassifyOutcome.deniedException
  | FetchOutcome.response status body =>
    if raiseForStatusRaises status then ClassifyOutcome.deniedException
    else if strContains body "ListBucketResult" then ClassifyOutcome.s3Listing
    else if strContains body "Contents" && strContains body "Name" then
      ClassifyOutcome.gcsHeuristic
    else if strContains body "EnumerationResults" then ClassifyOutcome.azureListing
    else if strContains body "AccessDenied" || strContains body "NoSuchBucket" then
      ClassifyOutcome.deniedMarker
    else ClassifyOutcome.inconclusive

/-- check_bucket_access (src/main.py lines 26-63): the boolean the
function returns. True at exactly the three signature-match return
sites, false at the denial-marker return, the fall-through return and
the exception handler. -/
def check_bucket_access (outcome : FetchOutcome) : Bool :=
  match outcome with
  | FetchOutcome.failure => false
  | FetchOutcome.response status body =>
    if raiseForStatusRaises status then false
    else if strContains body "ListBucketResult" then true
    else if strContains body "Contents" && strContains body "Name" then true
    else if strContains body "EnumerationResults" then true
    else if strContains body "AccessDenied" || strContains body "NoSuchBucket" then false
    else false

/-- Models domain.replace two arguments dot and hyphen of
src/main.py line 73: every dot becomes a hyphen. -/
def dotToHyphen (domain : String) : String :=
  String.map (fun c => if c = '.' then '-' else c) domain

/-- generate_bucket_names (src/main.py lines 65-76): the six candidate
names in the order of the source list literal. -/
def generate_bucket_names (domain : String) : List String :=
  [ domain ++ "-bucket"
  , "bucket-" ++ domain
  , domain
  , dotToHyphen domain
  , domain ++ "-public"
  , "public-" ++ domain ]

/-- The three provider URLs built for one bucket name inside the scan
loop (src/main.py lines 91-95), in source order: S3, GCS, Azure. -/
def bucket_urls (bucket_name : String) : List String :=
  [ "https://" ++ bucket_name ++ ".s3.amazonaws.com"
  , "https://storage.googleapis.com/" ++ bucket_name
  , "https://" ++ bucket_name ++ ".blob.core.windows.net" ]

/-- The full probe-target list of one scan: the nested loop of
scan_domain visits the candidates in order and, inside each candidate,
the three provider URLs in order, i.e. the concatenation of
bucket_urls over generate_bucket_names. -/
def allProbeTargets (domain : String) : List String :=
  (generate_bucket_names domain).flatMap bucket_urls

/-- Observable outcome of one scan_domain call (src/main.py lines
78-106): whether the invalid-domain error was logged, which URLs were
probed, which were collected as accessible, and the printed summary
(none when the scan aborted before printing, otherwise the accessible
list the summary reports). -/
structure ScanResult where
  invalidDomainError : Bool
  probedUrls : List String
  accessibleBuckets : List String
  summaryPrinted : Option (List String)
deriving DecidableEq

/-- scan_domain (src/main.py lines 78-106) with DNS resolution and HTTP
fetching abstracted as oracles. On an invalid domain the function logs
the error and returns before generating names, probing, or printing.
Otherwise every URL of the nested loop is probed exactly once, the ones
whose check returns true are collected in generation order, and a
summary is always printed. -/
def scan_domain (domain : String) (resolve : String → Bool)
    (fetch : String → FetchOutcome) : ScanResult :=
  if !is_valid_domain domain resolve then
    { invalidDomainError := true
    , probedUrls := []
    , accessibleBuckets := []
    , summaryPrinted := none }
  else
    let targets := allProbeTargets domain
    let accessible := targets.filter (fun url => check_bucket_access (fetch url))
    { invalidDomainError := false
    , probedUrls := targets
    , accessibleBuckets := accessible
    , summaryPrinted := some accessible }

/-- Follows the words of the specification, section 3 (NOT the source):
one label of the hostname grammar, 1 to 63 alphanumeric or hyphen
characters, not starting or ending in a hyphen. -/
def grammarLabelOk (l : List Char) : Bool :=
  decide (1 ≤ l.length) && decide (l.length ≤ 63) &&
  l.all (fun c => isAlnumChar c || c == '-') &&
  (match l.head? with | some c => c != '-' | none => false) &&
  (match l.getLast? with | some c => c != '-' | none => false)

/-- Follows the words of the specification, section 3 (NOT the source):
the hostname grammar, i.e. dot-separated labels, each 1 to 63
alphanumeric/hyphen characters not starting or ending in a hyphen, at
least one dot, and a final label that is purely alphabetic of length at
least two. Used to compare the grammar of the specification with the
regex of the source. -/
def specHostnameGrammar (s : String) : Bool :=
  let labels := splitLabels s.toList
  decide (2 ≤ labels.length) && labels.all grammarLabelOk &&
  (match labels.getLast? with
   | some l => decide (2 ≤ l.length) && l.all (fun c => c.isAlpha)
   | none => false)

/-- The boolean check_bucket_access returns is exactly the question of
whether the classified branch is one of the three accessible ones. -/
theorem check_eq_verdict (outcome : FetchOutcome) :
    check_bucket_access outcome = (verdictOf (classifyResponse outcome) == Verdict.accessible) := by
  cases outcome with
  | failure => rfl
  | response status body =>
    simp only [check_bucket_access, classifyResponse]
    cases h1 : raiseForStatusRaises status <;>
    cases h2 : strContains body "ListBucketResult" <;>
    cases h3 : strContains body "Contents" <;>
    cases h4 : strContains body "Name" <;>
    cases h5 : strContains body "EnumerationResults" <;>
    cases h6 : strContains body "AccessDenied" <;>
    cases h7 : strContains body "NoSuchBucket" <;>
    simp [h1, h2, h3, h4, h5, h6, h7, verdictOf]

/-- Helper: for a status below 400, raise_for_status does not raise. -/
theorem raiseForStatus_of_success (status : Nat) (h : status < 400) :
    raiseForStatusRaises status = false := by
  have h1 : decide (400 ≤ status) = false := decide_eq_false (by omega)
  simp [raiseForStatusRaises, h1]

/-- C1: for every response the transport treats as successful whose body
contains both ListBucketResult and AccessDenied, the S3 branch fires
first and check_bucket_access returns true: accessible signatures are
evaluated before denial markers, first match wins. -/
theorem priority_accessible_over_denial (status : Nat) (body : String)
    (hs : status < 400)
    (hl : strContains body "ListBucketResult" = true)
    (_hd : strContains body "AccessDenied" = true) :
    classifyResponse (FetchOutcome.response status body) = ClassifyOutcome.s3Listing ∧
    check_bucket_access (FetchOutcome.response status body) = true := by
  have hrs := raiseForStatus_of_success status hs
  constructor <;> simp [classifyResponse, check_bucket_access, hrs, hl]

/-- Witness for C1 at status 200 and a body holding both markers. -/
theorem priority_accessible_over_denial_witness :
    classifyResponse (FetchOutcome.response 200 "ListBucketResultAccessDenied") =
      ClassifyOutcome.s3Listing ∧
    check_bucket_access (FetchOutcome.response 200 "ListBucketResultAccessDenied") = true :=
  priority_accessible_over_denial 200 "ListBucketResultAccessDenied"
    (by decide) (by decide) (by decide)

/-- C2 counterexample: a 404 response whose body contains
ListBucketResult is classified Denied (check_bucket_access returns
false), because raise_for_status raises on every 4xx status and the
exception handler returns before any body-signature check runs. -/
theorem clientError_listing_denied_cex :
    check_bucket_access
      (FetchOutcome.response 404 "<ListBucketResult></ListBucketResult>") = false ∧
    verdictOf (classifyResponse
      (FetchOutcome.response 404 "<ListBucketResult></ListBucketResult>")) = Verdict.denied := by
  decide

/-- C2 amended: every response with a 4xx or 5xx status is surfaced as
an exception by raise_for_status and classified Denied regardless of
its body; only statuses outside 400-599 reach the body-signature
checks. -/
theorem raise_for_status_denies_4xx (status : Nat) (body : String)
    (h4 : 400 ≤ status) (h6 : status < 600) :
    classifyResponse (FetchOutcome.response status body) = ClassifyOutcome.deniedException ∧
    check_bucket_access (FetchOutcome.response status body) = false := by
  have hrs : raiseForStatusRaises status = true := by
    have h1 : decide (400 ≤ status) = true := decide_eq_true h4
    have h2 : decide (status < 600) = true := decide_eq_true h6
    simp [raiseForStatusRaises, h1, h2]
  constructor <;> simp [classifyResponse, check_bucket_access, hrs]

/-- Witness for the amended C2 at the 404 response of the
counterexample. -/
theorem raise_for_status_denies_4xx_witness :
    classifyResponse (FetchOutcome.response 404 "ListBucketResult") =
      ClassifyOutcome.deniedException ∧
    check_bucket_access (FetchOutcome.response 404 "ListBucketResult") = false :=
  raise_for_status_denies_4xx 404 "ListBucketResult" (by decide) (by decide)

/-- C3 counterexample: for the domain example.com the first generated
candidate is example.com-bucket, not the domain itself, so the claimed
order (identity first, then the -bucket suffix) is wrong. -/
theorem generation_order_cex :
    ¬ ((generate_bucket_names "example.com").get? 0 = some "example.com" ∧
       (generate_bucket_names "example.com").get? 1 = some "example.com-bucket") := by
  decide

/-- C3 amended: generate_bucket_names applies the transforms in the
order of the source list: the -bucket suffix first, the bucket- prefix
second, the identity third, dot-to-hyphen fourth, the -public suffix
fifth and the public- prefix sixth, always producing six candidates. -/
theorem generation_order_amended (d : String) :
    (generate_bucket_names d).length = 6 ∧
    (generate_bucket_names d).get? 0 = some (d ++ "-bucket") ∧
    (generate_bucket_names d).get? 1 = some ("bucket-" ++ d) ∧
    (generate_bucket_names d).get? 2 = some d ∧
    (generate_bucket_names d).get? 3 = some (dotToHyphen d) ∧
    (generate_bucket_names d).get? 4 = some (d ++ "-public") ∧
    (generate_bucket_names d).get? 5 = some ("public-" ++ d) :=
  ⟨rfl, rfl, rfl, rfl, rfl, rfl, rfl⟩

/-- C4 counterexample: for a successful response whose body contains
EnumerationResults together with Contents and Name, the branch that
fires is the GCS heuristic, not the Azure signature: in the source the
GCS check is evaluated second, before the Azure check. -/
theorem gcs_before_azure_cex :
    classifyResponse (FetchOutcome.response 200 "EnumerationResults Contents Name") =
      ClassifyOutcome.gcsHeuristic ∧
    ClassifyOutcome.gcsHeuristic ≠ ClassifyOutcome.azureListing := by
  decide

/-- C4 amended: among the accessible checks the GCS heuristic is
evaluated second, after the S3 check but before the Azure check: for a
successful response without ListBucketResult whose body contains
Contents, Name and EnumerationResults, the GCS branch fires and its
diagnostic is emitted; the verdict is still Accessible. -/
theorem gcs_heuristic_second (status : Nat) (body : String)
    (hs : status < 400)
    (hl : strContains body "ListBucketResult" = false)
    (hc : strContains body "Contents" = true)
    (hn : strContains body "Name" = true)
    (_he : strContains body "EnumerationResults" = true) :
    classifyResponse (FetchOutcome.response status body) = ClassifyOutcome.gcsHeuristic ∧
    verdictOf (classifyResponse (FetchOutcome.response status body)) = Verdict.accessible := by
  have hrs := raiseForStatus_of_success status hs
  constructor <;> simp [classifyResponse, verdictOf, hrs, hl, hc, hn]

/-- Witness for the amended C4 at the body of the counterexample. -/
theorem gcs_heuristic_second_witness :
    classifyResponse (FetchOutcome.response 200 "EnumerationResults Contents Name") =
      ClassifyOutcome.gcsHeuristic ∧
    verdictOf (classifyResponse (FetchOutcome.response 200 "EnumerationResults Contents Name")) =
      Verdict.accessible :=
  gcs_heuristic_second 200 "EnumerationResults Contents Name"
    (by decide) (by decide) (by decide) (by decide) (by decide)

/-- C5: generation is total and does not filter: every domain yields
exactly six candidates, their expansion yields exactly eighteen probe
targets, and the target at position 3i+j is provider template j applied
to candidate i, i.e. the order is candidate-major and provider-minor
with the providers in the order S3, GCS, Azure. Both functions are
pure, so repeated invocation yields identical output. -/
theorem candidate_expansion_counts (d : String) :
    (generate_bucket_names d).length = 6 ∧
    (allProbeTargets d).length = 18 ∧
    (∀ i j : Nat, i < 6 → j < 3 →
      (allProbeTargets d).get? (3 * i + j) =
        ((generate_bucket_names d).get? i).bind (fun c => (bucket_urls c).get? j)) := by
  refine ⟨rfl, rfl, ?_⟩
  intro i j hi hj
  interval_cases i <;> interval_cases j <;> rfl

/-- Witness for C5: the fifth target (candidate index 1, provider index
1) of the scan of example.com is the GCS URL of bucket-example.com. -/
theorem candidate_expansion_counts_witness :
    (allProbeTargets "example.com").get? 4 =
      some "https://storage.googleapis.com/bucket-example.com" := by
  have h := (candidate_expansion_counts "example.com").2.2 1 1 (by decide) (by decide)
  exact h.trans (by rfl)

/-- C6 counterexample: the string ab.com satisfies the hostname grammar
of the specification and yet is_valid_domain rejects it even when DNS
resolution succeeds, because the regex demands a first label of at
least three characters. -/
theorem grammar_vs_regex_cex :
    specHostnameGrammar "ab.com" = true ∧
    is_valid_domain "ab.com" (fun _ => true) = false := by
  decide

/-- Faithfulness anchor for the regex model: the Python dollar anchor
accepts one trailing newline, so abc.com followed by a newline passes
the regex test (and the program would proceed to the DNS lookup there),
while the regex body alone does not match the newline. -/
theorem domainRegex_accepts_trailing_newline :
    domainRegexMatches "abc.com\n" = true ∧
    domainRegexCore "abc.com\n".toList = false ∧
    domainRegexCore "abc.com".toList = true := by
  decide

/-- C6 amended: on newline-free input the syntax check of
is_valid_domain is stricter than the hostname grammar of the
specification: whatever the DNS oracle answers, a domain whose first
dot-separated label is shorter than three characters is rejected, and
so is a domain with any non-alphabetic character (digit or hyphen) in a
label after the first. (The newline-free hypothesis is needed because
the Python dollar anchor tolerates one trailing newline.) -/
theorem regex_stricter_than_grammar (d : String) (resolve : String → Bool)
    (first : List Char) (rest : List (List Char))
    (hnl : '\n' ∉ d.toList)
    (h : splitLabels d.toList = first :: rest)
    (hbad : first.length < 3 ∨ ∃ lbl ∈ rest, ∃ c ∈ lbl, c.isAlpha = false) :
    is_valid_domain d resolve = false := by
  have hcore : domainRegexCore d.toList = false := by
    rw [domainRegexCore, h]
    rcases hbad with hlen | ⟨lbl, hmem, c, hcmem, hca⟩
    · have hf : firstLabelOk first = false := by
        have h1 : decide (3 ≤ first.length) = false := decide_eq_false (by omega)
        simp [firstLabelOk, h1]
      simp [hf]
    · have ht : rest.all tailLabelOk = false := by
        cases hall : rest.all tailLabelOk
        · rfl
        · exfalso
          have h1 := List.all_eq_true.mp hall lbl hmem
          simp only [tailLabelOk, Bool.and_eq_true] at h1
          have h2 := List.all_eq_true.mp h1.2 c hcmem
          rw [hca] at h2
          exact Bool.false_ne_true h2
      simp [ht]
  have hregex : domainRegexMatches d = false := by
    rw [domainRegexMatches, hcore]
    simp only [Bool.false_or]
    cases hlast : d.toList.getLast? with
    | none => rfl
    | some c =>
      cases hc : c == '\n' with
      | true =>
        have hcmem : c ∈ d.toList := by
          rcases List.mem_getLast?_eq_getLast (hlast : c ∈ d.toList.getLast?) with ⟨hne, hce⟩
          exact hce ▸ List.getLast_mem hne
        exact absurd (eq_of_beq hc ▸ hcmem) hnl
      | false => simp [hc]
  simp [is_valid_domain, hregex]

/-- Witness for the amended C6: a short first label (ab.com) and a
digit in a middle label (x9.y2.com) are both rejected even under an
always-resolving DNS oracle. -/
theorem regex_stricter_than_grammar_witness :
    is_valid_domain "ab.com" (fun _ => false) = false ∧
    is_valid_domain "x9.y2.com" (fun _ => true) = false := by
  constructor
  · exact regex_stricter_than_grammar "ab.com" (fun _ => false)
      (['a', 'b']) ([['c', 'o', 'm']]) (by decide) (by decide) (Or.inl (by decide))
  · exact regex_stricter_than_grammar "x9.y2.com" (fun _ => true)
      (['x', '9']) ([['y', '2'], ['c', 'o', 'm']]) (by decide) (by decide)
      (Or.inr ⟨['y', '2'], by decide, '2', by decide, by decide⟩)

/-- C7: whenever domain validation fails, the scan aborts atomically:
the single invalid-domain error is reported, no URL is probed, no
accessible list is produced and no summary is printed. -/
theorem invalid_domain_aborts (d : String) (resolve : String → Bool)
    (fetch : String → FetchOutcome)
    (h : is_valid_domain d resolve = false) :
    scan_domain d resolve fetch =
      { invalidDomainError := true
      , probedUrls := []
      , accessibleBuckets := []
      , summaryPrinted := none } := by
  simp [scan_domain, h]

/-- Witness for C7 at the domain of scenario 3 of the specification,
which fails the regex because it contains spaces and no dot. -/
theorem invalid_domain_aborts_witness :
    scan_domain "not a domain" (fun _ => true) (fun _ => FetchOutcome.failure) =
      { invalidDomainError := true
      , probedUrls := []
      , accessibleBuckets := []
      , summaryPrinted := none } :=
  invalid_domain_aborts "not a domain" (fun _ => true) (fun _ => FetchOutcome.failure)
    (by decide)

/-- C8: a transport failure on one probe is confined to that probe: its
check returns false without raising, yet the scan still probes the full
target list, and membership of any URL in the accessible output depends
only on the check of that URL under its own fetch outcome. -/
theorem transport_failure_isolated (d : String) (resolve : String → Bool)
    (fetch : String → FetchOutcome) (url : String)
    (hval : is_valid_domain d resolve = true)
    (hfail : fetch url = FetchOutcome.failure) :
    check_bucket_access (fetch url) = false ∧
    (scan_domain d resolve fetch).probedUrls = allProbeTargets d ∧
    (∀ u : String, u ∈ (scan_domain d resolve fetch).accessibleBuckets ↔
      u ∈ allProbeTargets d ∧ check_bucket_access (fetch u) = true) := by
  refine ⟨by rw [hfail]; rfl, ?_, ?_⟩
  · simp [scan_domain, hval]
  · intro u
    simp [scan_domain, hval, List.mem_filter]

/-- Witness for C8: a scan of example.com under an oracle where every
fetch fails still probes all eighteen targets, and the S3 URL of the
identity candidate obeys the membership characterization. -/
theorem transport_failure_isolated_witness :
    check_bucket_access ((fun _ : String => FetchOutcome.failure) "u") = false ∧
    (scan_domain "example.com" (fun _ => true) (fun _ => FetchOutcome.failure)).probedUrls =
      allProbeTargets "example.com" ∧
    ("https://example.com.s3.amazonaws.com" ∈
        (scan_domain "example.com" (fun _ => true)
          (fun _ => FetchOutcome.failure)).accessibleBuckets ↔
      "https://example.com.s3.amazonaws.com" ∈ allProbeTargets "example.com" ∧
      check_bucket_access ((fun _ : String => FetchOutcome.failure)
        "https://example.com.s3.amazonaws.com") = true) := by
  have h := transport_failure_isolated "example.com" (fun _ => true)
    (fun _ => FetchOutcome.failure) "u" (by decide) rfl
  exact ⟨h.1, h.2.1, h.2.2 "https://example.com.s3.amazonaws.com"⟩

/-- C9: a successful response with an empty body falls through every
signature check and lands in the Inconclusive branch; the returned
boolean is false, the same value a denial-marker body produces, so the
target is excluded from the accessible output exactly as a Denied
target would be. -/
theorem empty_body_inconclusive (status : Nat) (hs : status < 400) :
    classifyResponse (FetchOutcome.response status "") = ClassifyOutcome.inconclusive ∧
    verdictOf (classifyResponse (FetchOutcome.response status "")) = Verdict.inconclusive ∧
    check_bucket_access (FetchOutcome.response status "") = false ∧
    check_bucket_access (FetchOutcome.response status "") =
      check_bucket_access (FetchOutcome.response status "AccessDenied") := by
  have hrs := raiseForStatus_of_success status hs
  refine ⟨?_, ?_, ?_, ?_⟩ <;> simp only [classifyResponse, check_bucket_access, hrs] <;> decide

/-- Witness for C9 at status 200. -/
theorem empty_body_inconclusive_witness :
    classifyResponse (FetchOutcome.response 200 "") = ClassifyOutcome.inconclusive ∧
    verdictOf (classifyResponse (FetchOutcome.response 200 "")) = Verdict.inconclusive ∧
    check_bucket_access (FetchOutcome.response 200 "") = false ∧
    check_bucket_access (FetchOutcome.response 200 "") =
      check_bucket_access (FetchOutcome.response 200 "AccessDenied") :=
  empty_body_inconclusive 200 (by decide)

/-- C10: on a successful response, check_bucket_access returns true
exactly when the body contains ListBucketResult, or both Contents and
Name, or EnumerationResults; a denial-marker body and a body matching
no signature produce the identical return value false, so the Denied
and Inconclusive outcomes are indistinguishable at the public return
value. -/
theorem check_access_characterization (status : Nat) (body : String)
    (hs : status < 400) :
    check_bucket_access (FetchOutcome.response status body) =
      (strContains body "ListBucketResult" ||
       (strContains body "Contents" && strContains body "Name") ||
       strContains body "EnumerationResults") ∧
    check_bucket_access (FetchOutcome.response status "AccessDenied") =
      check_bucket_access (FetchOutcome.response status "NoSuchBucket") ∧
    check_bucket_access (FetchOutcome.response status "AccessDenied") =
      check_bucket_access (FetchOutcome.response status "plain text") ∧
    check_bucket_access (FetchOutcome.response status "AccessDenied") = false := by
  have hrs := raiseForStatus_of_success status hs
  refine ⟨?_, ?_, ?_, ?_⟩
  · simp only [check_bucket_access, hrs]
    cases h2 : strContains body "ListBucketResult" <;>
    cases h3 : strContains body "Contents" <;>
    cases h4 : strContains body "Name" <;>
    cases h5 : strContains body "EnumerationResults" <;>
    cases h6 : strContains body "AccessDenied" <;>
    cases h7 : strContains body "NoSuchBucket" <;>
    simp [h2, h3, h4, h5, h6, h7]
  all_goals
    simp only [check_bucket_access, hrs]
    decide

/-- Witness for C10 at status 200 with an Azure body: the
characterization evaluates to true there. -/
theorem check_access_characterization_witness :
    check_bucket_access (FetchOutcome.response 200 "EnumerationResults") = true := by
  have h := (check_access_characterization 200 "EnumerationResults" (by decide)).1
  exact h.trans (by decide)

end BucketScanner
